import Mathlib

/-!
Verification of the Task Runner script
`src/electron/python-env/browser_automation_1769793283753.py`.

The script is a thin command-line bridge: it parses one JSON argument,
dispatches on a provider string to build one of two LLM client
configurations, optionally forwards a Chrome profile directory, delegates
to an external automation agent, and serializes the outcome as a single
JSON record on standard output.

Shallow embedding conventions:
* Python dict field access is modelled by `Option` fields; a missing field
  turns into a `KeyError` (`PyExc.keyError`), matching `config[k]`.
* Exceptions are modelled by the `PyExc` type and `Except PyExc`.
* External library behaviour is a parameter: `json.loads` is an oracle
  `jl : String -> Except PyExc Config` (it either yields the parsed
  configuration dict or raises), `agent.run()` is an oracle
  `ra : AgentRec -> Except PyExc String` (its result already passed
  through `str(...)`), and `traceback.format_exc()` is an oracle
  `tb : PyExc -> String`.
* A printed JSON object is modelled as an association list of keys to
  values (`ResultRecord`), preserving the key order of the source dict
  literal; the process stdout is the list of such printed lines.
* The Python float literal `0.1` is modelled as the rational `1/10`.
-/

/-- A JSON value as it appears in the emitted result records: the script
only ever serializes booleans and strings. -/
inductive JVal where
  | str : String → JVal
  | bool : Bool → JVal
deriving DecidableEq, Repr

/-- One emitted JSON object, as an ordered association list, one pair per
key of the source dict literal. -/
abbrev ResultRecord := List (String × JVal)

/-- Python exceptions that the script can raise or observe.
`runtimeExc ty msg` stands for an arbitrary exception coming out of the
external library calls, carrying its type name and message. -/
inductive PyExc where
  | keyError (key : String)
  | valueError (msg : String)
  | indexError
  | jsonDecodeError (msg : String)
  | runtimeExc (tyName : String) (msg : String)
deriving DecidableEq, Repr

/-- The apostrophe character as a string (used by `str(KeyError(k))`,
which renders the missing key in quotes). -/
def squote : String := String.mk [Char.ofNat 39]

/-- Python `str(e)` for each modelled exception. -/
def excMessage : PyExc → String
  | .keyError k => squote ++ k ++ squote
  | .valueError m => m
  | .indexError => "list index out of range"
  | .jsonDecodeError m => m
  | .runtimeExc _ m => m

/-- Python `type(e).__name__` for each modelled exception. -/
def excTypeName : PyExc → String
  | .keyError _ => "KeyError"
  | .valueError _ => "ValueError"
  | .indexError => "IndexError"
  | .jsonDecodeError _ => "JSONDecodeError"
  | .runtimeExc t _ => t

/-- The nested `llm` object of the configuration: fields `provider`,
`model`, `api_key`; each is `none` when the key is absent from the dict. -/
structure LlmConfig where
  provider : Option String
  model : Option String
  api_key : Option String
deriving DecidableEq, Repr

/-- The parsed configuration dict. Fields the script reads: `llm`
(nested object), `task` (string), optional `chrome_profile_path`
(string). `none` models an absent key. -/
structure Config where
  llm : Option LlmConfig
  task : Option String
  chrome_profile_path : Option String
deriving DecidableEq, Repr

/-- The constructed LLM client, recording exactly the constructor and the
arguments the script passes (source lines 24-35): `ChatGoogle(model,
api_key, temperature)` or `ChatOpenAI(model, api_key, base_url,
temperature)`. -/
inductive LlmClient where
  | chatGoogle (model : String) (api_key : String) (temperature : Rat)
  | chatOpenAI (model : String) (api_key : String) (base_url : String)
      (temperature : Rat)
deriving DecidableEq, Repr

/-- The constructed browser session, recording the keyword arguments
passed to `Browser(**browser_kwargs)` (source lines 40-45). -/
structure BrowserSession where
  user_data_dir : Option String
deriving DecidableEq, Repr

/-- The constructed agent, recording the arguments passed to
`Agent(task=..., llm=..., browser=...)` (source lines 48-52). -/
structure AgentRec where
  task : String
  llm : LlmClient
  browser : BrowserSession
deriving DecidableEq, Repr

/-- Source lines 21-37: read `config['llm']['provider']` has already
happened; this is the provider dispatch. `gemini` builds a `ChatGoogle`
with the config's model and api_key and temperature `0.1`; `openrouter`
builds a `ChatOpenAI` with the config's model and api_key, the fixed
base URL, and temperature `0.1`; anything else raises
`ValueError(f"Unsupported provider: ...")`. Keyword arguments are
evaluated left to right, so `model` is read before `api_key` and a
missing one raises `KeyError`. -/
def buildLlm (provider : String) (l : LlmConfig) : Except PyExc LlmClient :=
  if provider = "gemini" then
    match l.model with
    | none => .error (.keyError "model")
    | some m =>
      match l.api_key with
      | none => .error (.keyError "api_key")
      | some k => .ok (.chatGoogle m k (1/10))
  else if provider = "openrouter" then
    match l.model with
    | none => .error (.keyError "model")
    | some m =>
      match l.api_key with
      | none => .error (.keyError "api_key")
      | some k => .ok (.chatOpenAI m k "https://openrouter.ai/api/v1" (1/10))
  else
    .error (.valueError ("Unsupported provider: " ++ provider))

/-- Source lines 40-45: `browser_kwargs` gets `user_data_dir` exactly
when `'chrome_profile_path' in config and config['chrome_profile_path']`
holds, i.e. the key is present and its string value is truthy
(non-empty). -/
def browserOf (c : Config) : BrowserSession :=
  match c.chrome_profile_path with
  | none => { user_data_dir := none }
  | some s => if s = "" then { user_data_dir := none } else { user_data_dir := some s }

/-- The body of the `try` block of `main` (source lines 20-59), given the
agent-run oracle `ra`. `.ok r` means the block completed and printed the
success record `r`; `.error e` means the exception `e` reached the
`except` clause. Access order follows the source: `llm` dict, then
`provider`, then the provider dispatch, then the browser kwargs, then
`config['task']` (evaluated when constructing the `Agent`), then
`await agent.run()`. The success record is the dict literal of lines
55-59: `success`, `output`, `task`, in that order. -/
def tryBody (ra : AgentRec → Except PyExc String) (c : Config) :
    Except PyExc ResultRecord :=
  match c.llm with
  | none => .error (.keyError "llm")
  | some l =>
    match l.provider with
    | none => .error (.keyError "provider")
    | some provider =>
      match buildLlm provider l with
      | .error e => .error e
      | .ok llm =>
        match c.task with
        | none => .error (.keyError "task")
        | some task =>
          match ra { task := task, llm := llm, browser := browserOf c } with
          | .error e => .error e
          | .ok out =>
            .ok [("success", JVal.bool true), ("output", JVal.str out),
                 ("task", JVal.str task)]

/-- The failure record printed by the `except` clause (source lines
60-67): the dict literal with keys `success`, `error`, `error_type`,
`traceback`, in that order; `tb` models `traceback.format_exc()`. -/
def failureRecord (tb : PyExc → String) (e : PyExc) : ResultRecord :=
  [("success", JVal.bool false), ("error", JVal.str (excMessage e)),
   ("error_type", JVal.str (excTypeName e)),
   ("traceback", JVal.str (tb e))]

/-- The single record printed by `main` once the configuration has been
parsed: the success record when the try block completes, otherwise the
failure record of the caught exception. -/
def mainRecord (tb : PyExc → String) (ra : AgentRec → Except PyExc String)
    (c : Config) : ResultRecord :=
  match tryBody ra c with
  | .ok r => r
  | .error e => failureRecord tb e

/-- The record printed by the module-level ImportError guard (source
lines 13-14): only the keys `success` and `error`; `msg` is `str(e)` of
the ImportError. -/
def importFailureRecord (msg : String) : ResultRecord :=
  [("success", JVal.bool false),
   ("error", JVal.str ("Package not installed: " ++ msg))]

/-- Source line 18, `sys.argv[1]`: index 1 of the argument vector
(element 0 is the script path); raises `IndexError` when absent. -/
def getArg (argv : List String) : Except PyExc String :=
  match argv.get? 1 with
  | some s => .ok s
  | none => .error .indexError

/-- Observable outcome of one process invocation: the JSON lines written
to standard output, the exit status, and the exception (if any) that
escaped uncaught past `asyncio.run(main())`. -/
structure ProcResult where
  stdoutLines : List ResultRecord
  exitCode : Nat
  uncaught : Option PyExc
deriving DecidableEq, Repr

/-- The whole process (source lines 11-70). `importErr` is `some msg`
when `from browser_use import ...` raises `ImportError(msg)`: the guard
prints the import-failure record and exits with status 1. Otherwise
`main` runs: `sys.argv[1]` is read and `json.loads` applied, both
before the `try` block, so a failure in either escapes uncaught
(CPython terminates with status 1 and writes no JSON to stdout); with a
parsed configuration, `main` prints exactly one record and the process
exits 0. -/
def runProcess (importErr : Option String)
    (jl : String → Except PyExc Config) (tb : PyExc → String)
    (ra : AgentRec → Except PyExc String) (argv : List String) : ProcResult :=
  match importErr with
  | some msg =>
    { stdoutLines := [importFailureRecord msg], exitCode := 1, uncaught := none }
  | none =>
    match getArg argv with
    | .error e => { stdoutLines := [], exitCode := 1, uncaught := some e }
    | .ok s =>
      match jl s with
      | .error e => { stdoutLines := [], exitCode := 1, uncaught := some e }
      | .ok c =>
        { stdoutLines := [mainRecord tb ra c], exitCode := 0, uncaught := none }

/-! Concrete fixtures used by witnesses and counterexamples. -/

/-- A traceback oracle that renders a minimal trace. -/
def tbZero : PyExc → String := fun e => "Traceback: " ++ excMessage e

/-- An agent-run oracle that succeeds with a fixed stringified result. -/
def raOk : AgentRec → Except PyExc String := fun _ => .ok "done"

/-- An agent-run oracle that raises a runtime error, modelling e.g. a
network failure inside `agent.run()`. -/
def raBoom : AgentRec → Except PyExc String :=
  fun _ => .error (.runtimeExc "RuntimeError" "network down")

/-- A `json.loads` oracle on an argument that is not valid JSON: it
raises `json.JSONDecodeError`. -/
def jlBad : String → Except PyExc Config :=
  fun _ => .error (.jsonDecodeError "Expecting value: line 1 column 1 (char 0)")

/-- A `json.loads` oracle that parses to the given configuration. -/
def jlConst (c : Config) : String → Except PyExc Config := fun _ => .ok c

/-- Config whose provider is the unrecognized string `bogus`. -/
def cfgBogus : Config :=
  { llm := some { provider := some "bogus", model := some "m", api_key := some "k" },
    task := some "x", chrome_profile_path := none }

/-- Config whose `llm` key is absent entirely. -/
def cfgNoLlm : Config :=
  { llm := none, task := some "x", chrome_profile_path := none }

/-- Well-formed config except that the `task` key is absent. -/
def cfgNoTask : Config :=
  { llm := some { provider := some "gemini", model := some "m", api_key := some "k" },
    task := none, chrome_profile_path := none }

/-- Fully populated openrouter config without a profile path. -/
def cfgFull : Config :=
  { llm := some { provider := some "openrouter", model := some "m", api_key := some "k" },
    task := some "Open example.com", chrome_profile_path := none }

/-- Fully populated config with a non-empty Chrome profile path. -/
def cfgProfiled : Config :=
  { llm := some { provider := some "gemini", model := some "m", api_key := some "k" },
    task := some "t", chrome_profile_path := some "/home/u/chrome-profile" }

/-- C5: for every configuration whose `llm.provider` is neither `gemini`
nor `openrouter`, the emitted record is the failure record of
`ValueError("Unsupported provider: " ++ p)`; in particular `success` is
`false` and `error` is exactly the message mentioning the provider. -/
theorem c5_unsupported_provider (tb : PyExc → String)
    (ra : AgentRec → Except PyExc String) (c : Config) (l : LlmConfig)
    (p : String) (hl : c.llm = some l) (hp : l.provider = some p)
    (hg : p ≠ "gemini") (ho : p ≠ "openrouter") :
    mainRecord tb ra c
      = failureRecord tb (.valueError ("Unsupported provider: " ++ p)) ∧
    (mainRecord tb ra c).lookup "success" = some (JVal.bool false) ∧
    (mainRecord tb ra c).lookup "error"
      = some (JVal.str ("Unsupported provider: " ++ p)) := by
  have hmain : mainRecord tb ra c
      = failureRecord tb (.valueError ("Unsupported provider: " ++ p)) := by
    simp [mainRecord, tryBody, hl, hp, buildLlm, hg, ho]
  refine ⟨hmain, ?_, ?_⟩ <;>
    simp [hmain, failureRecord, excMessage, List.lookup]

/-- C5 witness: the spec scenario with provider `bogus`. -/
theorem c5_witness :
    mainRecord tbZero raOk cfgBogus
      = failureRecord tbZero (.valueError ("Unsupported provider: " ++ "bogus")) ∧
    (mainRecord tbZero raOk cfgBogus).lookup "success" = some (JVal.bool false) ∧
    (mainRecord tbZero raOk cfgBogus).lookup "error"
      = some (JVal.str ("Unsupported provider: " ++ "bogus")) :=
  c5_unsupported_provider tbZero raOk cfgBogus
    { provider := some "bogus", model := some "m", api_key := some "k" }
    "bogus" rfl rfl (by decide) (by decide)

/-- C6: provider dispatch is exhaustive over the two recognized values.
`gemini` constructs the Google client from the config's model and
api_key with fixed temperature 1/10 (the Python literal 0.1);
`openrouter` constructs the OpenAI-compatible client from the config's
model and api_key with the fixed base URL and the same temperature; any
other provider raises the unsupported-provider `ValueError`. -/
theorem c6_provider_dispatch (m k p : String) :
    buildLlm "gemini" { provider := some "gemini", model := some m, api_key := some k }
      = .ok (.chatGoogle m k (1/10)) ∧
    buildLlm "openrouter"
        { provider := some "openrouter", model := some m, api_key := some k }
      = .ok (.chatOpenAI m k "https://openrouter.ai/api/v1" (1/10)) ∧
    (p ≠ "gemini" → p ≠ "openrouter" →
      ∀ l : LlmConfig, buildLlm p l
        = .error (.valueError ("Unsupported provider: " ++ p))) := by
  refine ⟨by simp [buildLlm], by simp [buildLlm], fun hg ho l => ?_⟩
  simp [buildLlm, hg, ho]

/-- C6 witness: the dispatch evaluated at concrete model `m`, key `k`,
and the unrecognized provider `bogus`. -/
theorem c6_witness :
    buildLlm "gemini" { provider := some "gemini", model := some "m", api_key := some "k" }
      = .ok (.chatGoogle "m" "k" (1/10)) ∧
    buildLlm "openrouter"
        { provider := some "openrouter", model := some "m", api_key := some "k" }
      = .ok (.chatOpenAI "m" "k" "https://openrouter.ai/api/v1" (1/10)) ∧
    buildLlm "bogus" { provider := some "bogus", model := some "m", api_key := some "k" }
      = .error (.valueError ("Unsupported provider: " ++ "bogus")) := by
  obtain ⟨h1, h2, h3⟩ := c6_provider_dispatch "m" "k" "bogus"
  exact ⟨h1, h2, h3 (by decide) (by decide) _⟩

/-- C7: when `chrome_profile_path` is absent or the empty string, the
browser session carries no `user_data_dir`; when present and non-empty,
the session's `user_data_dir` is exactly that value. -/
theorem c7_profile_forwarding (c : Config) :
    ((c.chrome_profile_path = none ∨ c.chrome_profile_path = some "") →
      (browserOf c).user_data_dir = none) ∧
    (∀ s, c.chrome_profile_path = some s → s ≠ "" →
      (browserOf c).user_data_dir = some s) := by
  constructor
  · rintro (h | h) <;> simp [browserOf, h]
  · intro s hs hne
    simp [browserOf, hs, hne]

/-- C7 witness: a config with a non-empty profile path forwards it
verbatim, and a config without the key gets no persistent profile. -/
theorem c7_witness :
    (browserOf cfgProfiled).user_data_dir = some "/home/u/chrome-profile" ∧
    (browserOf cfgFull).user_data_dir = none :=
  ⟨(c7_profile_forwarding cfgProfiled).2 "/home/u/chrome-profile" rfl (by decide),
   (c7_profile_forwarding cfgFull).1 (Or.inl rfl)⟩

/-- C8: for every otherwise well-formed configuration (llm object
present with a recognized provider, model and api_key all present) that
lacks the `task` key, the emitted record is the failure record of
`KeyError('task')`: the field-access failure is caught by the except
clause, and `success` is `false`. -/
theorem c8_missing_task (tb : PyExc → String)
    (ra : AgentRec → Except PyExc String) (c : Config) (l : LlmConfig)
    (m k : String)
    (hl : c.llm = some l)
    (hp : l.provider = some "gemini" ∨ l.provider = some "openrouter")
    (hm : l.model = some m) (hk : l.api_key = some k)
    (ht : c.task = none) :
    mainRecord tb ra c = failureRecord tb (.keyError "task") ∧
    (mainRecord tb ra c).lookup "success" = some (JVal.bool false) := by
  have hmain : mainRecord tb ra c = failureRecord tb (.keyError "task") := by
    rcases hp with hp | hp <;>
      simp [mainRecord, tryBody, hl, hp, buildLlm, hm, hk, ht]
  exact ⟨hmain, by simp [hmain, failureRecord, List.lookup]⟩

/-- C8 witness: the gemini config lacking `task`. -/
theorem c8_witness :
    mainRecord tbZero raOk cfgNoTask = failureRecord tbZero (.keyError "task") ∧
    (mainRecord tbZero raOk cfgNoTask).lookup "success" = some (JVal.bool false) :=
  c8_missing_task tbZero raOk cfgNoTask
    { provider := some "gemini", model := some "m", api_key := some "k" }
    "m" "k" rfl (Or.inl rfl) rfl rfl rfl

/-- C9: with the dependency import succeeding but no command-line
argument (an argument vector of at most the script name), `sys.argv[1]`
raises `IndexError` before the try block, so the process writes no JSON
record to stdout, terminates with the exception uncaught, and exits
with status 1. -/
theorem c9_no_argument (jl : String → Except PyExc Config)
    (tb : PyExc → String) (ra : AgentRec → Except PyExc String)
    (argv : List String) (h : argv.length ≤ 1) :
    (runProcess none jl tb ra argv).stdoutLines = [] ∧
    (runProcess none jl tb ra argv).uncaught = some .indexError ∧
    (runProcess none jl tb ra argv).exitCode = 1 := by
  have hg : argv[1]? = none := by
    match argv with
    | [] => rfl
    | [a] => rfl
    | a :: b :: t => simp at h
  simp [runProcess, getArg, hg]

/-- C9 witness: the argument vector holding only the script path. -/
theorem c9_witness :
    (runProcess none jlBad tbZero raOk ["script.py"]).stdoutLines = [] ∧
    (runProcess none jlBad tbZero raOk ["script.py"]).uncaught
      = some .indexError ∧
    (runProcess none jlBad tbZero raOk ["script.py"]).exitCode = 1 :=
  c9_no_argument jlBad tbZero raOk ["script.py"] (by decide)

/-- Helper: whenever the try block completes, the printed record is the
success dict literal, so its `success` key holds `true` and its keys
are exactly `success`, `output`, `task`. -/
theorem tryBody_ok_shape (ra : AgentRec → Except PyExc String)
    (c : Config) (r : ResultRecord) (h : tryBody ra c = .ok r) :
    ∃ out task, r = [("success", JVal.bool true), ("output", JVal.str out),
      ("task", JVal.str task)] := by
  unfold tryBody at h
  repeat' split at h
  all_goals simp_all
  exact ⟨_, _, h.symm⟩

/-- C10: every record emitted by `main` whose `success` value is `false`
comes from the runtime catch-all, so its keys are exactly `success`,
`error`, `error_type`, `traceback` in that order; in particular the
`task` key never appears, even when the task string had been read before
the failure. -/
theorem c10_failure_keys (tb : PyExc → String)
    (ra : AgentRec → Except PyExc String) (c : Config)
    (h : (mainRecord tb ra c).lookup "success" = some (JVal.bool false)) :
    (mainRecord tb ra c).map Prod.fst
      = ["success", "error", "error_type", "traceback"] ∧
    "task" ∉ (mainRecord tb ra c).map Prod.fst := by
  cases htb : tryBody ra c with
  | ok r =>
    obtain ⟨out, task, rfl⟩ := tryBody_ok_shape ra c r htb
    simp [mainRecord, htb, List.lookup] at h
  | error e =>
    constructor <;> simp [mainRecord, htb, failureRecord]

/-- C10 witness: the fully populated config whose agent run raises a
runtime error after the task string was read; the failure record still
omits `task`. -/
theorem c10_witness :
    (mainRecord tbZero raBoom cfgFull).map Prod.fst
      = ["success", "error", "error_type", "traceback"] ∧
    "task" ∉ (mainRecord tbZero raBoom cfgFull).map Prod.fst :=
  c10_failure_keys tbZero raBoom cfgFull (by decide)

/-- C1 counterexample: with the dependency import succeeding and a
single argument that is not valid JSON, `json.loads` (line 18) runs
before the try block and its exception escapes `main` uncaught, so the
claim that every single-argument invocation converts all failures into
a Result record is false. -/
theorem c1_counterexample :
    ¬ (runProcess none jlBad tbZero raOk ["script.py", "not json"]).uncaught
      = none := by
  decide

/-- C1 amended: once the configuration argument is present and parses as
JSON, no exception escapes the process boundary: exactly the `main`
record is printed, and whenever the try block raises, that record is the
failure record of the caught exception. (A malformed JSON argument,
parsed before the try block, still escapes uncaught.) -/
theorem c1_amended (jl : String → Except PyExc Config) (tb : PyExc → String)
    (ra : AgentRec → Except PyExc String) (argv : List String) (s : String)
    (c : Config) (h1 : getArg argv = .ok s) (h2 : jl s = .ok c) :
    (runProcess none jl tb ra argv).uncaught = none ∧
    (runProcess none jl tb ra argv).stdoutLines = [mainRecord tb ra c] ∧
    ∀ e, tryBody ra c = .error e →
      mainRecord tb ra c = failureRecord tb e := by
  refine ⟨?_, ?_, fun e he => ?_⟩
  · simp [runProcess, h1, h2]
  · simp [runProcess, h1, h2]
  · simp [mainRecord, he]

/-- C1 witness: a parsed bogus-provider config; the unsupported-provider
failure is caught and printed, nothing escapes. -/
theorem c1_witness :
    (runProcess none (jlConst cfgBogus) tbZero raOk ["script.py", "cfg"]).uncaught
      = none ∧
    (runProcess none (jlConst cfgBogus) tbZero raOk ["script.py", "cfg"]).stdoutLines
      = [mainRecord tbZero raOk cfgBogus] ∧
    mainRecord tbZero raOk cfgBogus
      = failureRecord tbZero (.valueError "Unsupported provider: bogus") :=
  ⟨(c1_amended (jlConst cfgBogus) tbZero raOk ["script.py", "cfg"] "cfg" cfgBogus
      rfl rfl).1,
   (c1_amended (jlConst cfgBogus) tbZero raOk ["script.py", "cfg"] "cfg" cfgBogus
      rfl rfl).2.1,
   (c1_amended (jlConst cfgBogus) tbZero raOk ["script.py", "cfg"] "cfg" cfgBogus
      rfl rfl).2.2 (.valueError "Unsupported provider: bogus") rfl⟩

/-- C2 counterexample: a single malformed-JSON argument makes the
process crash before any print, so zero (not one) JSON lines reach
stdout, refuting the claim for that invocation. -/
theorem c2_counterexample :
    (runProcess none jlBad tbZero raOk ["script.py", "not json"]).stdoutLines.length
      ≠ 1 := by
  decide

/-- C2 amended: the process writes exactly one JSON line exactly when no
exception escapes uncaught (the import-failure path and every
parsed-configuration path); a missing or malformed configuration
argument crashes before the first print and writes none. -/
theorem c2_amended (importErr : Option String)
    (jl : String → Except PyExc Config) (tb : PyExc → String)
    (ra : AgentRec → Except PyExc String) (argv : List String) :
    (runProcess importErr jl tb ra argv).stdoutLines.length
      = (if (runProcess importErr jl tb ra argv).uncaught = none then 1 else 0) := by
  cases importErr with
  | some msg => simp [runProcess]
  | none =>
    cases h1 : getArg argv with
    | error e => simp [runProcess, h1]
    | ok s =>
      cases h2 : jl s with
      | error e => simp [runProcess, h1, h2]
      | ok c => simp [runProcess, h1, h2]

/-- C3 counterexample: with the dependency import succeeding, the
malformed-JSON invocation exits with status 1 and no JSON body at all,
so exit status 1 does not imply an import failure. -/
theorem c3_counterexample :
    (runProcess none jlBad tbZero raOk ["script.py", "not json"]).exitCode = 1 ∧
    (runProcess none jlBad tbZero raOk ["script.py", "not json"]).stdoutLines
      = [] := by
  decide

/-- C3 amended: the exit status is 1 exactly when the dependency fails
to import or an exception escapes uncaught before the try block (missing
or malformed configuration argument); every caught failure mode exits 0,
and the status is always 0 or 1. -/
theorem c3_amended (importErr : Option String)
    (jl : String → Except PyExc Config) (tb : PyExc → String)
    (ra : AgentRec → Except PyExc String) (argv : List String) :
    ((runProcess importErr jl tb ra argv).exitCode = 1 ↔
      importErr ≠ none ∨ (runProcess importErr jl tb ra argv).uncaught ≠ none) ∧
    ((runProcess importErr jl tb ra argv).exitCode = 0 ∨
      (runProcess importErr jl tb ra argv).exitCode = 1) := by
  cases importErr with
  | some msg => simp [runProcess]
  | none =>
    cases h1 : getArg argv with
    | error e => simp [runProcess, h1]
    | ok s =>
      cases h2 : jl s with
      | error e => simp [runProcess, h1, h2]
      | ok c => simp [runProcess, h1, h2]

/-- C4 counterexample: the dependency-import failure record has
`success = false` but carries no `error_type` key, refuting the claim
that every failure-shaped record carries one. -/
theorem c4_counterexample :
    (runProcess (some "No module named browser_use") jlBad tbZero raOk
        ["script.py"]).stdoutLines
      = [importFailureRecord "No module named browser_use"] ∧
    (importFailureRecord "No module named browser_use").lookup "success"
      = some (JVal.bool false) ∧
    (importFailureRecord "No module named browser_use").lookup "error_type"
      = none := by
  decide

/-- C4 amended: every failure record emitted by the runtime catch-all of
`main` carries `error`, `error_type` and `traceback`; only the
dependency-import failure record carries just `success` and `error`. -/
theorem c4_amended (tb : PyExc → String)
    (ra : AgentRec → Except PyExc String) (c : Config)
    (h : (mainRecord tb ra c).lookup "success" = some (JVal.bool false)) :
    ((mainRecord tb ra c).lookup "error").isSome ∧
    ((mainRecord tb ra c).lookup "error_type").isSome ∧
    ((mainRecord tb ra c).lookup "traceback").isSome := by
  cases htb : tryBody ra c with
  | ok r =>
    obtain ⟨out, task, rfl⟩ := tryBody_ok_shape ra c r htb
    simp [mainRecord, htb, List.lookup] at h
  | error e =>
    refine ⟨?_, ?_, ?_⟩ <;> simp [mainRecord, htb, failureRecord, List.lookup]

/-- C4 witness: the config lacking the `llm` key; its caught `KeyError`
record carries all three diagnostic keys. -/
theorem c4_witness :
    ((mainRecord tbZero raOk cfgNoLlm).lookup "error").isSome ∧
    ((mainRecord tbZero raOk cfgNoLlm).lookup "error_type").isSome ∧
    ((mainRecord tbZero raOk cfgNoLlm).lookup "traceback").isSome :=
  c4_amended tbZero raOk cfgNoLlm (by decide)
